import Mathlib

/-!
Verification of the Fly-Pie menu editor layout and drag-and-drop logic
(`src/prefs/MenuEditor.js`) against its natural-language specification.

The development shallowly embeds the relevant pieces of the widget:

* the pixel/angle arithmetic is carried out over `ℚ` (JS numbers are used
  here only on small integral and quarter-integral values, which `ℚ`
  represents exactly);
* widget state that the handlers mutate (`_dropIndex`, `_lastDropIndex`,
  `_oldItems`, `_lastHideTime`, the displayed item lists) becomes explicit
  state records with pure step functions;
* `Math.sin`/`Math.cos` only occur downstream of all decided values, so
  position computations are parameterised over abstract `sinDeg cosDeg`
  functions (degree-argument composites of the radian conversion and the
  trigonometric functions).
-/

/-- JS `array.splice(i, 0, a)`: insert `a` at position `i`.  A start
position at or past the end is clamped to the end, so the element is
appended there. -/
def jsSpliceInsert {α : Type} (l : List α) (i : ℕ) (a : α) : List α :=
  l.take i ++ a :: l.drop i

/-- JS `array.splice(i, 1)`: remove the element at position `i`; a start
position at or past the end removes nothing. -/
def jsSpliceRemove {α : Type} (l : List α) (i : ℕ) : List α :=
  l.take i ++ l.drop (i + 1)

/-- JS `%` remainder on numbers: the sign follows the dividend.  The menu
editor only applies it to a non-negative dividend and the positive cell
size. -/
def jsMod (a b : ℚ) : ℚ :=
  if 0 ≤ a then a - b * ⌊a / b⌋ else -((-a) - b * ⌊(-a) / b⌋)

/-- The fields of a menu configuration that `FlyPieMenuEditor` reads:
`name`, `icon`, `type` and the optional fixed `angle` (`angle >= 0` in the
source marks a fixed angle; an absent or negative angle means "free"). -/
structure ItemConfig where
  name : String
  icon : String
  type : String
  angle : Option ℚ
deriving DecidableEq, Repr

def defaultItemConfig : ItemConfig := ⟨"", "", "", none⟩

/-- `MenuEditor.js` line 350: the three display states of an item. -/
inductive ItemState where
  | GRID
  | CENTER
  | CHILD
deriving DecidableEq, Repr

/-- `MenuEditor.js` line 357: `const ItemSize = [130, 120, 100]`. -/
def ItemSize : ItemState → ℕ
  | ItemState.GRID => 130
  | ItemState.CENTER => 120
  | ItemState.CHILD => 100

/-- `MenuEditor.js` line 399: duration of all editor animations (ms). -/
def TRANSITION_DURATION : ℚ := 350

/-! ## The angle solver (collaborator, modelled from the spec)

`utils.computeItemAngles` lives in `src/common/utils.js`, which is not part
of the provided sources; only its call site (`MenuEditor.js` line 1774) is.
It is therefore modelled from spec §4.1. -/

/-- Indices of the entries that carry a fixed angle. -/
def fixedIndices (entries : List (Option ℚ)) : List ℕ :=
  (List.range entries.length).filter (fun j => (entries.getD j none).isSome)

/-- The fixed angle recorded at index `j` (0 when there is none). -/
def entryAngle (entries : List (Option ℚ)) (j : ℕ) : ℚ :=
  (entries.getD j none).getD 0

/-- Wrap an angle into `[0, 360)`. -/
def wrap360 (a : ℚ) : ℚ := a - 360 * ⌊a / 360⌋

/-- Even interpolation of the position `i` between a fixed slot `aIdx` at
angle `a` and the next fixed slot `bIdx` at angle `b` (indices may be
shifted by the list length to express the circular wrap-around). -/
def interpBetween (aIdx : ℤ) (a : ℚ) (bIdx : ℤ) (b : ℚ) (i : ℤ) : ℚ :=
  let b := if b ≤ a then b + 360 else b
  wrap360 (a + (b - a) * (((i - aIdx : ℤ) : ℚ) / ((bIdx - aIdx : ℤ) : ℚ)))

/-- Modelled from the spec: the angle given to the free entry at index `i`
when at least one entry is fixed — "Unconstrained items are distributed
evenly over the angular ranges between fixed items", wrapping circularly
when no fixed item precedes or follows `i` in list order. -/
def interpFree (entries : List (Option ℚ)) (i : ℕ) : ℚ :=
  let n := entries.length
  let fs := fixedIndices entries
  match (fs.filter (fun j => decide (j < i))).getLast?,
      (fs.filter (fun j => decide (i < j))).head? with
  | some j, some k => interpBetween j (entryAngle entries j) k (entryAngle entries k) i
  | some j, none =>
    match fs.head? with
    | some k => interpBetween j (entryAngle entries j) ((k : ℤ) + n) (entryAngle entries k + 360) i
    | none => 0
  | none, some k =>
    match fs.getLast? with
    | some j => interpBetween ((j : ℤ) - n) (entryAngle entries j - 360) k (entryAngle entries k) i
    | none => 0
  | none, none => 0

/-- Modelled from the spec: the core distribution of spec §4.1 without the
parent exclusion.  With no fixed entries all items are spread evenly
around the full circle (starting at the top, preserving input order); with
fixed entries each fixed item keeps exactly its angle and free items are
interpolated evenly into the gaps between their circular fixed
neighbours. -/
def solveCore (entries : List (Option ℚ)) : List ℚ :=
  if (fixedIndices entries).isEmpty then
    (List.range entries.length).map (fun i => ((i : ℕ) : ℚ) * 360 / (entries.length : ℚ))
  else
    (List.range entries.length).map (fun i =>
      match entries.getD i none with
      | some a => a
      | none => interpFree entries i)

/-- Modelled from the spec: `utils.computeItemAngles(fixedAngles,
parentAngle)` — the Angle Solver of spec §4.1, whose implementation is not
under the provided sources.  It returns one angle per input entry, in input
order.  A parent exclusion angle is treated as one additional reserved
fixed slot appended after the items; the extra slot is dropped from the
result. -/
def computeItemAngles (entries : List (Option ℚ)) (parentAngle : Option ℚ) : List ℚ :=
  match parentAngle with
  | none => solveCore entries
  | some p => (solveCore (entries ++ [some p])).take entries.length

/-! ## `FlyPieMenuEditor._computeItemAngles` (lines 1734–1794) -/

/-- The entry pushed for a single item: `{angle: a}` when
`item.getConfig().angle >= 0`, else `{}` (lines 1759–1763). -/
def fixedEntry (it : ItemConfig) : Option ℚ :=
  match it.angle with
  | some a => if 0 ≤ a then some a else none
  | none => none

/-- The `forEach` of lines 1743–1764: builds the `fixedAngles` array,
inserting an artificial free entry at the drop gap and skipping the
dragged item.  `i` is the index of the first element of the remaining
list. -/
def buildFixedAngles : List ItemConfig → ℕ → Option ℕ → Option ℕ → List (Option ℚ)
  | [], _, _, _ => []
  | it :: rest, i, dragIndex, dropIndex =>
    (if dropIndex = some i then [(none : Option ℚ)] else []) ++
      (if dragIndex = some i then [] else [fixedEntry it]) ++
      buildFixedAngles rest (i + 1) dragIndex dropIndex

/-- `FlyPieMenuEditor._computeItemAngles` (lines 1734–1794): builds the
`fixedAngles` list (with the trailing artificial entry when the drop index
is past the last item, lines 1770–1772), calls the angle solver, removes
the artificial drop-gap angle again (lines 1779–1787) and duplicates the
successor angle onto the dragged item's position (lines 1789–1791).
JS out-of-range indexing yields `undefined`, hence the `Option ℚ`
elements. -/
def computeItemAnglesEditor (items : List ItemConfig) (dragIndex dropIndex : Option ℕ)
    (parentAngle : Option ℚ) : List (Option ℚ) :=
  let fixedAngles := buildFixedAngles items 0 dragIndex dropIndex ++
    (if dropIndex = some items.length then [(none : Option ℚ)] else [])
  let angles0 := (computeItemAngles fixedAngles parentAngle).map some
  let angles1 :=
    match dropIndex with
    | none => angles0
    | some di =>
      let removeIndex := match dragIndex with
        | some gi => if gi + 1 < di then di - 1 else di
        | none => di
      jsSpliceRemove angles0 removeIndex
  match dragIndex with
  | none => angles1
  | some gi => jsSpliceInsert angles1 gi (angles1.getD (gi % angles1.length) none)

/-! ## Transition classification (`setItems`, lines 1387–1434) -/

/-- `MenuEditor.js` line 389: the five transition kinds (plus `NONE`). -/
inductive TransitionType where
  | NONE
  | TRANSITION_A
  | TRANSITION_B
  | TRANSITION_C
  | TRANSITION_D
  | TRANSITION_E
deriving DecidableEq, Repr

/-- The name/icon comparison used by `setItems` to match a config against
an existing item (lines 1395 and 1407). -/
def configMatches (a b : ItemConfig) : Bool :=
  a.name == b.name && a.icon == b.icon

/-- Lines 1387–1434 of `setItems`: classify the upcoming transition from
the current display (`oldItems`, `oldCenter`, `oldParentAngle`) and the
arguments of the call (`configs`, `centerConfig`, `parentAngle`). -/
def classifyTransition (oldItems : List ItemConfig) (oldCenter : Option ItemConfig)
    (oldParentAngle : Option ℚ) (configs : List ItemConfig)
    (centerConfig : Option ItemConfig) (parentAngle : Option ℚ) : TransitionType :=
  let wentOneLevelDeeper :=
    match centerConfig with
    | some cc => oldItems.any (fun it => configMatches it cc)
    | none => false
  let wentOneLevelUp :=
    match oldCenter with
    | some oc => configs.any (fun c => configMatches c oc)
    | none => false
  if oldCenter = none ∧ parentAngle = none ∧ centerConfig ≠ none then
    TransitionType.TRANSITION_A
  else if oldCenter ≠ none ∧ oldParentAngle = none ∧ centerConfig = none then
    TransitionType.TRANSITION_B
  else if wentOneLevelDeeper then
    TransitionType.TRANSITION_C
  else if wentOneLevelUp then
    TransitionType.TRANSITION_D
  else
    TransitionType.TRANSITION_E

/-! ## Drop target cursor state (`_dropTarget` handlers, lines 774–1078) -/

/-- The transient drag-and-drop cursor state of the editor-wide drop
target: `_dropIndex`, `_lastDropIndex`, `_dropRow`, `_dropColumn`. -/
structure DropState where
  dropIndex : Option ℕ
  lastDropIndex : Option ℕ
  dropRow : Option ℕ
  dropColumn : Option ℕ
deriving DecidableEq, Repr

/-- The `motion` handler (lines 803–979) recomputes `_dropIndex`;
`resolved` is the insertion index it reports for the current pointer
position. -/
def dropMotion (s : DropState) (resolved : Option ℕ) : DropState :=
  { s with dropIndex := resolved }

/-- The `leave` handler (lines 983–997): save `_dropIndex` into
`_lastDropIndex`, then reset the `_drop*` members. -/
def dropLeave (s : DropState) : DropState :=
  { s with
    lastDropIndex := s.dropIndex
    dropColumn := none
    dropRow := none
    dropIndex := none }

/-- The index the `drop` handler (lines 1003–1075) uses for its `drop-item`
and `drop-data` emissions: `_dropIndex`, falling back to `_lastDropIndex`
when it is `null` (lines 1005–1007); `none` means the handler returns
`false` without emitting (lines 1010–1012). -/
def dropEmitIndex (s : DropState) : Option ℕ :=
  match s.dropIndex with
  | some i => some i
  | none => s.lastDropIndex

/-! ## Menu overview (grid) layout (`vfunc_size_allocate`, lines 1173–1209) -/

/-- Lines 1175–1180: `_columnCount` and `_rowCount` of the overview grid.
`(n + c - 1) / c` is `Math.ceil(n / c)` for a positive column count `c`
(the widget's measured minimum width of four cells keeps `c` positive).
When the items fit a single row the column count is clamped down to the
item count. -/
def overviewColumnRow (width n : ℕ) : ℕ × ℕ :=
  let columnCount := width / ItemSize ItemState.GRID
  let rowCount := (n + columnCount - 1) / columnCount
  (if rowCount = 1 then n else columnCount, rowCount)

/-- Line 1183: `_gridOffsetX`, centering the grid block horizontally. -/
def gridOffsetX (width n : ℕ) : ℚ :=
  ((width : ℚ) - ((overviewColumnRow width n).1 * ItemSize ItemState.GRID : ℕ)) / 2

/-- Line 1184: `_gridOffsetY`, centering the grid block vertically. -/
def gridOffsetY (width height n : ℕ) : ℚ :=
  ((height : ℚ) - ((overviewColumnRow width n).2 * ItemSize ItemState.GRID : ℕ)) / 2

/-- Lines 1192–1203: the sideways offset applied to the item at
`(row, column)` to part the grid around a pending drop at
`(dropRow, dropColumn)`; `range = 3` items move by `strength = 15` pixels
per step. -/
def overviewDragOffset (row column : ℕ) (dropRow dropColumn : Option ℕ) : ℚ :=
  match dropRow, dropColumn with
  | some dr, some dc =>
    if row = dr then
      if column < dc then
        -(((max 0 (3 - ((dc : ℤ) - (column : ℤ)) + 1) : ℤ) : ℚ) * 15)
      else
        ((max 0 (3 - ((column : ℤ) - (dc : ℤ))) : ℤ) : ℚ) * 15
    else 0
  | _, _ => 0

/-- Lines 1186–1208: the (end-of-animation) top-left position of overview
item `i`: row-major cell plus centering offset plus the drop parting
offset. -/
def overviewItemPos (width height n i : ℕ) (dropRow dropColumn : Option ℕ) : ℚ × ℚ :=
  let c := (overviewColumnRow width n).1
  let column := i % c
  let row := i / c
  (gridOffsetX width n + ((column * ItemSize ItemState.GRID : ℕ) : ℚ) +
      overviewDragOffset row column dropRow dropColumn,
    gridOffsetY width height n + ((row * ItemSize ItemState.GRID : ℕ) : ℚ))

/-! ## Grid-mode drop zone (`motion` handler, lines 812–840) -/

/-- Lines 816–819 for the x coordinate: make the pointer position relative
to the grid and clamp it to the grid bounds. -/
def gridClampedX (width n : ℕ) (px : ℚ) : ℚ :=
  max 0 (min (((overviewColumnRow width n).1 * ItemSize ItemState.GRID : ℕ) : ℚ)
    (px - gridOffsetX width n))

/-- Lines 817–819 for the y coordinate. -/
def gridClampedY (width height n : ℕ) (py : ℚ) : ℚ :=
  max 0 (min (((overviewColumnRow width n).2 * ItemSize ItemState.GRID : ℕ) : ℚ)
    (py - gridOffsetY width height n))

/-- The grid branch of the `motion` handler (lines 812–840): clamp the
pointer into the grid, then either resolve `(row, column, index)` when the
clamped x coordinate falls into the quarter-cell drop zone on either side
of a cell boundary, or report no valid drop position.  The cell size is
`ItemSize[ItemState.GRID] = 130` and `dropZoneWidth = 130 / 4`. -/
def gridDropResolve (width height n : ℕ) (px py : ℚ) : Option (ℕ × ℕ × ℕ) :=
  let cell : ℚ := (ItemSize ItemState.GRID : ℕ)
  let x := gridClampedX width n px
  let y := gridClampedY width height n py
  if jsMod x cell < cell / 4 ∨ jsMod x cell > cell - cell / 4 then
    let dropColumn := (⌊x / cell + 1/2⌋).toNat
    let dropRow := (⌊y / cell⌋).toNat
    some (dropRow, dropColumn, min n ((overviewColumnRow width n).1 * dropRow + dropColumn))
  else
    none

/-! ## Radial-mode drop zone (`motion` handler, lines 842–965)

The handler first converts the pointer position to an angle `mouseAngle`
(0° = up, clockwise) via `acos`; the functions below take that angle as
input and embed the index computation of lines 874–964, which is what the
claims about the resolver are phrased in. -/

/-- One iteration of the wedge loop (lines 907–963) at index `i`; `some`
is a hit (the loop breaks), `none` means the loop continues. -/
def wedgeCheck (mouseAngle : ℚ) (itemAngles : List ℚ) (items : List ItemConfig)
    (dragIndex : Option ℕ) (i : ℕ) : Option ℕ :=
  let n := itemAngles.length
  let wedgeStart := itemAngles.getD i 0
  let wedgeEnd0 := itemAngles.getD ((i + 1) % n) 0
  let wedgeEnd := if wedgeEnd0 < wedgeStart then wedgeEnd0 + 360 else wedgeEnd0
  let diff := wedgeEnd - wedgeStart
  let wedgeStartPadding : ℚ :=
    if (items.getD i defaultItemConfig).type == "CustomMenu" then 1/4 else 0
  let wedgeEndPadding : ℚ :=
    if (items.getD ((i + 1) % n) defaultItemConfig).type == "CustomMenu" then 1/4 else 0
  let lastWedge := i = n - 1 ∨ (i = n - 2 ∧ dragIndex = some (n - 1))
  if lastWedge ∧
      ((mouseAngle ≥ wedgeStart + diff * (1/2) ∧
          mouseAngle < wedgeEnd - diff * wedgeEndPadding) ∨
        (mouseAngle + 360 ≥ wedgeStart + diff * (1/2) ∧
          mouseAngle + 360 < wedgeEnd - diff * wedgeEndPadding)) then
    some 0
  else if (mouseAngle ≥ wedgeStart + diff * wedgeStartPadding ∧
        mouseAngle < wedgeEnd - diff * wedgeEndPadding) ∨
      (mouseAngle + 360 ≥ wedgeStart + diff * wedgeStartPadding ∧
        mouseAngle + 360 < wedgeEnd - diff * wedgeEndPadding) then
    some (i + 1)
  else
    none

/-- Lines 874–964: resolve the insertion index from the pointer angle in
menu-edit mode.  `itemAngles` is the result of `_computeItemAngles()` and
`items` the current item list (used for the `CustomMenu` wedge padding);
`none` means the drop at the current position is not possible. -/
def radialDropIndex (mouseAngle : ℚ) (itemAngles : List ℚ) (items : List ItemConfig)
    (dragIndex : Option ℕ) : Option ℕ :=
  if itemAngles.length = 0 then
    some 0
  else if itemAngles.length = 1 then
    if dragIndex ≠ none then
      some 0
    else if mouseAngle - itemAngles.getD 0 0 < 90 ∨
        mouseAngle - itemAngles.getD 0 0 > 270 then
      some 0
    else
      some 1
  else if itemAngles.length = 2 ∧ dragIndex ≠ none then
    if mouseAngle - itemAngles.getD 0 0 < 90 ∨
        mouseAngle - itemAngles.getD 0 0 > 270 then
      some 0
    else
      some 2
  else
    (List.range itemAngles.length).findSome? (wedgeCheck mouseAngle itemAngles items dragIndex)

/-! ## Retention of superseded items (`setItems`, lines 1441–1464) -/

/-- The state relevant to old-item retention, with each retained
superseded item abstracted to the raw frame clock time at which it was
hidden: `_oldItems` (as hide times), the number of currently displayed
items (which the next `setItems` call will hide), and `_lastHideTime`.
All times here are in MICROSECONDS: line 1443 stores
`get_frame_time()` raw, without the `/ 1000` that lines 1152 and 1351
apply before using the same clock on the millisecond animation axis. -/
structure RetentionState where
  oldHideTimes : List ℚ
  curHideCount : ℕ
  lastHideTime : ℚ
deriving DecidableEq, Repr

/-- Lines 1441–1464 of `setItems`, executed at raw frame time `now` (the
branch with a frame clock present): old items are unparented only when
`_lastHideTime + TRANSITION_DURATION < now`, `_lastHideTime` becomes
`now`, and all currently displayed items are appended to `_oldItems`
(made insensitive and fading, hidden at time `now`).

Units: `now` and `_lastHideTime` are microseconds (line 1443 reads
`get_frame_time()` with no `/ 1000`, unlike lines 1152 and 1351), while
`TRANSITION_DURATION = 350` is the millisecond-scale animation duration
(it is handed to the revealer crossfade at line 444 and added to the
by-1000-divided frame time at lines 1141–1143).  The guard therefore
opens 350 microseconds — not 350 milliseconds — after the last hide. -/
def setItemsRetain (s : RetentionState) (now : ℚ) (newCount : ℕ) : RetentionState :=
  { oldHideTimes :=
      (if s.lastHideTime + TRANSITION_DURATION < now then [] else s.oldHideTimes) ++
        List.replicate s.curHideCount now
    curHideCount := newCount
    lastHideTime := now }

/-- The raw frame time (microseconds) at which a superseded item's
fade-out completes: the crossfade runs for `TRANSITION_DURATION`
milliseconds (line 444; likewise lines 1141–1143 on the `/ 1000` time
axis), i.e. `1000 * TRANSITION_DURATION` microseconds after the hide. -/
def fadeEndTimeUs (hideTimeUs : ℚ) : ℚ := hideTimeUs + 1000 * TRANSITION_DURATION

/-! ## Displayed-item state and end-of-animation positions (`setItems`,
lines 1377–1508, and `vfunc_size_allocate`, lines 1117–1363) -/

/-- The arguments of a `setItems` call. -/
structure SetItemsArgs where
  configs : List ItemConfig
  selectedIndex : ℤ
  centerConfig : Option ItemConfig
  parentAngle : Option ℚ
deriving DecidableEq, Repr

/-- The parts of the editor state that determine what is displayed and
where: `_items` (as their configs), `_centerItem`, `_parentAngle`,
`_selectedItem` and `_upcomingTransition`. -/
structure VisState where
  items : List ItemConfig
  centerItem : Option ItemConfig
  parentAngle : Option ℚ
  selected : Option ItemConfig
  upcomingTransition : TransitionType
deriving DecidableEq, Repr

/-- Lines 1476–1497: the item that becomes `_selectedItem` (the item at
`selectedIndex`, or the center item for index `-1`, or none). -/
def selectedOf (a : SetItemsArgs) : Option ItemConfig :=
  if a.selectedIndex < 0 then
    (if a.selectedIndex = -1 then a.centerConfig else none)
  else
    a.configs.get? a.selectedIndex.toNat

/-- `setItems` (lines 1377–1508) restricted to the displayed-item state:
classify the upcoming transition from the previous state, then rebuild the
item list, center item, parent angle and selection from the arguments
alone. -/
def setItemsVis (s : VisState) (a : SetItemsArgs) : VisState :=
  { items := a.configs
    centerItem := a.centerConfig
    parentAngle := a.parentAngle
    selected := selectedOf a
    upcomingTransition :=
      classifyTransition s.items s.centerItem s.parentAngle a.configs a.centerConfig
        a.parentAngle }

/-- `vfunc_size_allocate` (lines 1117–1363) with no drag in progress: the
end-of-animation top-left positions of the displayed items.  In radial
mode (lines 1211–1232) the code computes
`Math.floor(Math.sin(angle * π / 180) * radius) + centerX - size / 2`;
`sinDeg`/`cosDeg` stand for the fixed composite functions
`a ↦ Math.sin(a * π / 180)` and `a ↦ Math.cos(a * π / 180)`, the radius is
`ItemSize[GRID] * 1.4 = 182` and `centerX/Y = Math.floor(width/height / 2)`.
The final element of the pair is the center item's position (lines
1228–1231). -/
def endTargets (sinDeg cosDeg : ℚ → ℚ) (s : VisState) (width height : ℕ) :
    List (ℚ × ℚ) × Option (ℚ × ℚ) :=
  let centerX : ℚ := ((width / 2 : ℕ) : ℚ)
  let centerY : ℚ := ((height / 2 : ℕ) : ℚ)
  match s.centerItem with
  | none =>
    ((List.range s.items.length).map
        (fun i => overviewItemPos width height s.items.length i none none),
      none)
  | some _ =>
    let angles := computeItemAnglesEditor s.items none none s.parentAngle
    ((List.range s.items.length).map (fun i =>
        let a := (angles.getD i none).getD 0
        (((⌊sinDeg a * 182⌋ : ℤ) : ℚ) + centerX - ((ItemSize ItemState.CHILD : ℕ) : ℚ) / 2,
          ((-⌊cosDeg a * 182⌋ : ℤ) : ℚ) + centerY - ((ItemSize ItemState.CHILD : ℕ) : ℚ) / 2)),
      some (centerX - ((ItemSize ItemState.CENTER : ℕ) : ℚ) / 2,
        centerY - ((ItemSize ItemState.CENTER : ℕ) : ℚ) / 2))

/-! ## Concrete sample data for witnesses and counterexamples -/

def cfgA : ItemConfig := ⟨"a", "icon-a", "Command", none⟩

def cfgB : ItemConfig := ⟨"b", "icon-b", "Command", none⟩

/-- An empty editor display state (as after construction). -/
def visInit : VisState := ⟨[], none, none, none, TransitionType.NONE⟩

/-- A `setItems` call whose center config does not occur in the list. -/
def argsDistinct : SetItemsArgs := ⟨[cfgA], 0, some cfgB, none⟩

/-- A `setItems` call whose center config shares name and icon with a list
entry. -/
def argsClash : SetItemsArgs := ⟨[cfgA], 0, some cfgA, none⟩

/-! ## Generic lemmas about the JS splice embeddings -/

theorem jsSpliceInsert_zero {α : Type} (l : List α) (a : α) :
    jsSpliceInsert l 0 a = a :: l := by
  simp [jsSpliceInsert]

theorem jsSpliceInsert_cons {α : Type} (x : α) (l : List α) (i : ℕ) (a : α) :
    jsSpliceInsert (x :: l) (i + 1) a = x :: jsSpliceInsert l i a := by
  simp [jsSpliceInsert]

theorem jsSpliceInsert_length {α : Type} (l : List α) (i : ℕ) (a : α) (h : i ≤ l.length) :
    (jsSpliceInsert l i a).length = l.length + 1 := by
  simp [jsSpliceInsert]
  omega

theorem jsSpliceInsert_getD_self {α : Type} :
    ∀ (i : ℕ) (l : List α), i ≤ l.length → ∀ (a d : α), (jsSpliceInsert l i a).getD i d = a
  | 0, l, _, a, d => by simp [jsSpliceInsert_zero]
  | i + 1, [], h, a, d => by simp at h
  | i + 1, x :: l, h, a, d => by
    rw [jsSpliceInsert_cons, List.getD_cons_succ]
    exact jsSpliceInsert_getD_self i l (by simpa using h) a d

theorem jsSpliceInsert_getD_succ {α : Type} :
    ∀ (i : ℕ) (l : List α), i < l.length → ∀ (a d : α),
      (jsSpliceInsert l i a).getD (i + 1) d = l.getD i d
  | 0, [], h, _, _ => by simp at h
  | 0, _ :: _, _, a, d => by simp [jsSpliceInsert_zero]
  | i + 1, [], h, _, _ => by simp at h
  | i + 1, x :: l, h, a, d => by
    rw [jsSpliceInsert_cons, List.getD_cons_succ, List.getD_cons_succ]
    exact jsSpliceInsert_getD_succ i l (by simpa using h) a d

theorem jsSpliceInsert_last {α : Type} (l : List α) (a : α) :
    jsSpliceInsert l l.length a = l ++ [a] := by
  simp [jsSpliceInsert]

theorem eraseIdx_jsSpliceInsert {α : Type} :
    ∀ (i : ℕ) (l : List α), i ≤ l.length → ∀ (a : α), (jsSpliceInsert l i a).eraseIdx i = l
  | 0, l, _, a => by simp [jsSpliceInsert_zero]
  | i + 1, [], h, a => by simp at h
  | i + 1, x :: l, h, a => by
    rw [jsSpliceInsert_cons, List.eraseIdx_cons_succ,
      eraseIdx_jsSpliceInsert i l (by simpa using h) a]

theorem getD_append_self {α : Type} :
    ∀ (l : List α) (a : α) (m : List α) (d : α), (l ++ a :: m).getD l.length d = a
  | [], a, m, d => by simp
  | x :: l, a, m, d => by
    simp only [List.cons_append, List.length_cons, List.getD_cons_succ]
    exact getD_append_self l a m d

theorem getD_zero_append {α : Type} (l m : List α) (d : α) (h : l ≠ []) :
    (l ++ m).getD 0 d = l.getD 0 d := by
  cases l with
  | nil => exact absurd rfl h
  | cons x l => rfl

/-! ## C1 — leave-before-drop keeps the motion-reported index -/

/-- C1: if a pointer `leave` fires after a `motion` that resolved insertion
index `v` and before the terminal `drop`, the drop handler runs with
`_dropIndex` unset and uses exactly `v` (saved into `_lastDropIndex` at
leave time) for its drop-signal emissions — the last-known insertion index
is never lost by the leave-before-drop ordering. -/
theorem dropHandler_uses_last_motion_index (s : DropState) (v : Option ℕ) :
    (dropLeave (dropMotion s v)).dropIndex = none ∧
    dropEmitIndex (dropLeave (dropMotion s v)) = v := by
  cases v <;> simp [dropMotion, dropLeave, dropEmitIndex]

/-! ## C5 — transition classification of kinds A and B -/

/-- C5: a `setItems` call on an editor with no center item, supplying a
center config and no parent angle, always classifies the upcoming
transition as kind A; a call on an editor showing a center item with no
parent angle, supplying no center config, always classifies it as kind B —
regardless of the item lists. -/
theorem setItems_transition_classification
    (oldItems : List ItemConfig) (oldCenter : Option ItemConfig) (oldParentAngle : Option ℚ)
    (configs : List ItemConfig) (centerConfig : Option ItemConfig) (parentAngle : Option ℚ) :
    (oldCenter = none → parentAngle = none → centerConfig ≠ none →
      classifyTransition oldItems oldCenter oldParentAngle configs centerConfig parentAngle =
        TransitionType.TRANSITION_A) ∧
    (oldCenter ≠ none → oldParentAngle = none → centerConfig = none →
      classifyTransition oldItems oldCenter oldParentAngle configs centerConfig parentAngle =
        TransitionType.TRANSITION_B) := by
  constructor
  · intro h1 h2 h3
    simp [classifyTransition, h1, h2, h3]
  · intro h1 h2 h3
    simp [classifyTransition, h1, h2, h3]

theorem setItems_transition_classification_witness :
    ((none : Option ItemConfig) = none ∧ (none : Option ℚ) = none ∧
      (some defaultItemConfig : Option ItemConfig) ≠ none ∧
      classifyTransition [] none none [] (some defaultItemConfig) none =
        TransitionType.TRANSITION_A) ∧
    ((some defaultItemConfig : Option ItemConfig) ≠ none ∧ (none : Option ℚ) = none ∧
      (none : Option ItemConfig) = none ∧
      classifyTransition [] (some defaultItemConfig) none [] none (some 10) =
        TransitionType.TRANSITION_B) := by
  refine ⟨⟨rfl, rfl, Option.some_ne_none _, ?_⟩, ⟨Option.some_ne_none _, rfl, rfl, ?_⟩⟩
  · exact (setItems_transition_classification [] none none [] (some defaultItemConfig)
      none).1 rfl rfl (Option.some_ne_none _)
  · exact (setItems_transition_classification [] (some defaultItemConfig) none [] none
      (some 10)).2 (Option.some_ne_none _) rfl rfl

/-! ## C8 — retention of superseded items across setItems calls -/

/-- C8: the retention window is broken by a unit mismatch, so the claimed
full-`TRANSITION_DURATION` retention is false of the program.  Starting
from an editor showing one item (`_lastHideTime = 0`), a `setItems` call
at raw frame time 1000000 µs hides that item; a second call only
1000 µs = 1 ms later — while the item's 350 ms fade, ending at
1350000 µs, has barely begun — already unparents it, because line 1443
compares raw microsecond frame times against the millisecond constant
350.  The superseded item was retained for 1 ms, not for one full
`TRANSITION_DURATION`. -/
theorem setItemsRetain_discards_mid_fade :
    (setItemsRetain ⟨[], 1, 0⟩ 1000000 2).oldHideTimes = [(1000000 : ℚ)] ∧
    (setItemsRetain (setItemsRetain ⟨[], 1, 0⟩ 1000000 2) 1001000 0).oldHideTimes =
      List.replicate 2 (1001000 : ℚ) ∧
    (1000000 : ℚ) ∉
      (setItemsRetain (setItemsRetain ⟨[], 1, 0⟩ 1000000 2) 1001000 0).oldHideTimes ∧
    (1001000 : ℚ) - 1000000 = 1000 ∧
    fadeEndTimeUs 1000000 = 1350000 := by
  refine ⟨?_, ?_, ?_, by norm_num, by norm_num [fadeEndTimeUs, TRANSITION_DURATION]⟩
  · norm_num [setItemsRetain, TRANSITION_DURATION]
  · norm_num [setItemsRetain, TRANSITION_DURATION]
  · norm_num [setItemsRetain, TRANSITION_DURATION, List.mem_replicate]

/-! ## C4 — radial drop-zone resolution with a single existing item -/

/-- C4 counterexample: with the single non-dragged item at angle 0 and the
pointer at angle 90 — a circular distance of exactly 90°, which the claim
("at most 90 degrees" resolves to index 0) covers — the resolver returns
index 1, because the source comparison is strict (`mouseAngle -
itemAngles[0] < 90`). -/
theorem radialDropIndex_boundary_counterexample :
    min |(90 : ℚ) - 0| (360 - |(90 : ℚ) - 0|) ≤ 90 ∧
    radialDropIndex 90 [0] [defaultItemConfig] none = some 1 := by
  constructor
  · norm_num
  · norm_num [radialDropIndex]

/-- C4 (amended): in radial mode with exactly one existing item, a drag of
that item itself always resolves to index 0; an external drag resolves to
index 0 exactly when the raw (not circularly normalised) difference
`mouseAngle - itemAngle` is strictly below 90 or strictly above 270, and
to index 1 otherwise.  For an item at angle 0 (as a single free top-level
item is placed) this means: circular distance strictly below 90° gives
index 0; in particular a pointer exactly 180° away resolves to index 1 and
one 45° away to index 0. -/
theorem radialDropIndex_singleItem (mouseAngle a : ℚ) (items : List ItemConfig) (g : ℕ) :
    radialDropIndex mouseAngle [a] items (some g) = some 0 ∧
    radialDropIndex mouseAngle [a] items none =
      some (if mouseAngle - a < 90 ∨ mouseAngle - a > 270 then 0 else 1) ∧
    radialDropIndex 180 [0] items none = some 1 ∧
    radialDropIndex 45 [0] items none = some 0 := by
  refine ⟨?_, ?_, ?_, ?_⟩
  · simp [radialDropIndex]
  · simp only [radialDropIndex, List.length_singleton, List.getD_cons_zero]
    norm_num
    split <;> rfl
  · norm_num [radialDropIndex]
  · norm_num [radialDropIndex]

/-! ## C7 — grid-mode drop zones -/

/-- C7: the grid branch of the `motion` handler first clamps the pointer's
x coordinate into the grid bounds `[0, columnCount·130]`, and resolves a
(non-null) drop row, column and insertion index exactly when the clamped x
coordinate lies in the quarter-cell band on either side of a cell
boundary (`x % 130 < 130/4` or `x % 130 > 130 - 130/4`); at every other
pointer position row, column and index are all unset. -/
theorem gridDropResolve_band (width height n : ℕ) (px py : ℚ) :
    (0 ≤ gridClampedX width n px ∧
      gridClampedX width n px ≤
        (((overviewColumnRow width n).1 * ItemSize ItemState.GRID : ℕ) : ℚ)) ∧
    ((gridDropResolve width height n px py).isSome ↔
      (jsMod (gridClampedX width n px) 130 < 130 / 4 ∨
        jsMod (gridClampedX width n px) 130 > 130 - 130 / 4)) := by
  constructor
  · constructor
    · exact le_max_left _ _
    · exact max_le (by positivity) (min_le_left _ _)
  · rw [gridDropResolve]
    have hc : ((ItemSize ItemState.GRID : ℕ) : ℚ) = 130 := by norm_num [ItemSize]
    rw [hc]
    split
    · simp [‹_›]
    · simp only [Option.isSome_none, Bool.false_eq_true, false_iff]
      exact ‹¬_›

/-! ## C3 — even spacing with no fixed angles and no parent exclusion -/

theorem getD_replicate {α : Type} :
    ∀ (n j : ℕ) (x : α), (List.replicate n x).getD j x = x
  | 0, _, x => by simp
  | n + 1, 0, x => by simp [List.replicate]
  | n + 1, j + 1, x => by
    simp only [List.replicate, List.getD_cons_succ]
    exact getD_replicate n j x

theorem fixedIndices_replicate_none (n : ℕ) :
    fixedIndices (List.replicate n (none : Option ℚ)) = [] := by
  simp [fixedIndices, getD_replicate]

theorem computeItemAngles_replicate (n : ℕ) :
    computeItemAngles (List.replicate n (none : Option ℚ)) none =
      (List.range n).map (fun i => ((i : ℕ) : ℚ) * 360 / (n : ℚ)) := by
  simp [computeItemAngles, solveCore, fixedIndices_replicate_none]

theorem getD_range_map (f : ℕ → ℚ) (n i : ℕ) (h : i < n) (d : ℚ) :
    ((List.range n).map f).getD i d = f i := by
  rw [List.getD_eq_getD_get?, List.get?_map, List.get?_range h]
  rfl

/-- C3 (spec-modelled Angle Solver): for a list of `n` items none of which
carries a fixed angle and with no parent exclusion angle, the solver
returns exactly `n` angles in input order spaced exactly `360/n` degrees
apart, and for zero items it returns the empty result. -/
theorem computeItemAngles_evenSpacing (n i : ℕ) :
    (computeItemAngles (List.replicate n (none : Option ℚ)) none).length = n ∧
    computeItemAngles [] none = [] ∧
    (i + 1 < n →
      (computeItemAngles (List.replicate n (none : Option ℚ)) none).getD (i + 1) 0 -
        (computeItemAngles (List.replicate n (none : Option ℚ)) none).getD i 0 =
        360 / (n : ℚ)) := by
  refine ⟨?_, ?_, ?_⟩
  · rw [computeItemAngles_replicate]
    simp
  · rfl
  · intro h
    rw [computeItemAngles_replicate, getD_range_map _ _ _ (by omega),
      getD_range_map _ _ _ (by omega)]
    have hn : (n : ℚ) ≠ 0 := Nat.cast_ne_zero.mpr (by omega)
    push_cast
    field_simp
    ring

theorem computeItemAngles_evenSpacing_witness :
    2 + 1 < 4 ∧
    (computeItemAngles (List.replicate 4 (none : Option ℚ)) none).getD (2 + 1) 0 -
      (computeItemAngles (List.replicate 4 (none : Option ℚ)) none).getD 2 0 =
      360 / (4 : ℚ) :=
  ⟨by norm_num, (computeItemAngles_evenSpacing 4 2).2.2 (by norm_num)⟩

/-! ## C2 / C10 — `_computeItemAngles` under a drag -/

theorem solveCore_length (entries : List (Option ℚ)) :
    (solveCore entries).length = entries.length := by
  unfold solveCore
  split <;> simp

theorem computeItemAngles_length (entries : List (Option ℚ)) (pa : Option ℚ) :
    (computeItemAngles entries pa).length = entries.length := by
  cases pa with
  | none => exact solveCore_length entries
  | some p =>
    simp [computeItemAngles, solveCore_length]

theorem buildFixedAngles_drag_lt :
    ∀ (items : List ItemConfig) (i g : ℕ), g < i →
      buildFixedAngles items i (some g) none = items.map fixedEntry
  | [], _, _, _ => rfl
  | it :: rest, i, g, h => by
    have hgi : g ≠ i := Nat.ne_of_lt h
    simp [buildFixedAngles, hgi,
      buildFixedAngles_drag_lt rest (i + 1) g (Nat.lt_succ_of_lt h)]

theorem buildFixedAngles_drag :
    ∀ (items : List ItemConfig) (i g : ℕ), i ≤ g →
      buildFixedAngles items i (some g) none = (items.eraseIdx (g - i)).map fixedEntry
  | [], _, _, _ => by simp [buildFixedAngles]
  | it :: rest, i, g, h => by
    rcases eq_or_lt_of_le h with hgi | hgi
    · subst hgi
      simp [buildFixedAngles, Nat.sub_self,
        buildFixedAngles_drag_lt rest (i + 1) i (Nat.lt_succ_self i)]
    · have hne : g ≠ i := (Nat.ne_of_lt hgi).symm
      have hsub : g - i = (g - (i + 1)) + 1 := by omega
      rw [hsub, List.eraseIdx_cons_succ]
      simp only [buildFixedAngles, List.map_cons]
      simp [hne, buildFixedAngles_drag rest (i + 1) g (Nat.succ_le_of_lt hgi)]

theorem computeItemAnglesEditor_drag_none_eq (items : List ItemConfig) (g : ℕ)
    (pa : Option ℚ) :
    computeItemAnglesEditor items (some g) none pa =
      jsSpliceInsert ((computeItemAngles (buildFixedAngles items 0 (some g) none) pa).map some)
        g
        (((computeItemAngles (buildFixedAngles items 0 (some g) none) pa).map some).getD
          (g % ((computeItemAngles (buildFixedAngles items 0 (some g) none) pa).map some).length)
          none) := by
  simp [computeItemAnglesEditor]

/-- C2: when the dragged item is one of the existing items (at index `g`)
and no drop gap is pending, `_computeItemAngles` (i) returns one angle per
item, (ii) duplicates onto index `g` exactly the angle of the following
index (wrapping to index 0 after the last item), and (iii) with the entry
at `g` removed, the result is exactly the solver's output for the item
list with the dragged item omitted — all other items are placed as if the
dragged item did not exist. -/
theorem computeItemAnglesEditor_dragged (items : List ItemConfig) (g : ℕ) (pa : Option ℚ)
    (h : g < items.length) :
    (computeItemAnglesEditor items (some g) none pa).length = items.length ∧
    (computeItemAnglesEditor items (some g) none pa).getD g none =
      (computeItemAnglesEditor items (some g) none pa).getD ((g + 1) % items.length) none ∧
    (computeItemAnglesEditor items (some g) none pa).eraseIdx g =
      (computeItemAngles ((items.eraseIdx g).map fixedEntry) pa).map some := by
  have hb : buildFixedAngles items 0 (some g) none = (items.eraseIdx g).map fixedEntry := by
    simpa using buildFixedAngles_drag items 0 g (Nat.zero_le g)
  have heq := computeItemAnglesEditor_drag_none_eq items g pa
  rw [hb] at heq
  set l : List (Option ℚ) := (computeItemAngles ((items.eraseIdx g).map fixedEntry) pa).map some
    with hldef
  have hlen : l.length = items.length - 1 := by
    rw [hldef]
    simp [computeItemAngles_length, List.length_eraseIdx, h]
  have hgle : g ≤ l.length := by omega
  refine ⟨?_, ?_, ?_⟩
  · rw [heq, jsSpliceInsert_length l g _ hgle]
    omega
  · rcases Nat.lt_or_ge g l.length with hglt | hge
    · rw [heq, Nat.mod_eq_of_lt hglt, jsSpliceInsert_getD_self g l (le_of_lt hglt),
        Nat.mod_eq_of_lt (show g + 1 < items.length by omega),
        jsSpliceInsert_getD_succ g l hglt]
    · have hgl : g = l.length := le_antisymm hgle hge
      have hN : items.length = l.length + 1 := by omega
      rw [heq, hgl, Nat.mod_self, jsSpliceInsert_last, hN, Nat.mod_self]
      by_cases hl0 : l = []
      · rw [hl0]
        rfl
      · rw [getD_zero_append l [l.getD 0 none] none hl0]
        exact getD_append_self l (l.getD 0 none) [] none
  · rw [heq, eraseIdx_jsSpliceInsert g l hgle]

theorem computeItemAnglesEditor_dragged_witness :
    0 < ([cfgA, cfgB] : List ItemConfig).length ∧
    ((computeItemAnglesEditor [cfgA, cfgB] (some 0) none none).length =
        ([cfgA, cfgB] : List ItemConfig).length ∧
      (computeItemAnglesEditor [cfgA, cfgB] (some 0) none none).getD 0 none =
        (computeItemAnglesEditor [cfgA, cfgB] (some 0) none none).getD
          ((0 + 1) % ([cfgA, cfgB] : List ItemConfig).length) none ∧
      (computeItemAnglesEditor [cfgA, cfgB] (some 0) none none).eraseIdx 0 =
        (computeItemAngles ((([cfgA, cfgB] : List ItemConfig).eraseIdx 0).map fixedEntry)
            none).map some) :=
  ⟨by norm_num, computeItemAnglesEditor_dragged [cfgA, cfgB] 0 none (by norm_num)⟩

/-- C10: at the reachable editor state with two items, `_dragIndex = 1`
(the second item is being dragged) and `_dropIndex = 2` (the "after" drop
zone of the two-item special case), `_computeItemAngles` returns three
angles for the two items: the removal index `2` of the artificial drop-gap
angle lies past the end of the solver result, so the gap angle is never
removed, and the drag re-insertion then grows the array — contradicting
the method's own documentation ("The length of the returned array matches
this._items.length.", lines 1725–1726). -/
theorem computeItemAnglesEditor_length_mismatch :
    ([cfgA, cfgB] : List ItemConfig).length = 2 ∧
    (computeItemAnglesEditor [cfgA, cfgB] (some 1) (some 2) none).length = 3 := by
  constructor
  · rfl
  · rfl

/-! ## C6 — overview grid layout -/

/-- C6 counterexample: at width 400 with 2 items,
`floor(400 / 130) = 3` columns would be available, but because the items
fit a single row the code clamps the column count to the item count, so
the layout uses 2 columns — the claimed `columns = floor(W / S)` fails. -/
theorem overviewColumnRow_counterexample :
    (overviewColumnRow 400 2).1 = 2 ∧
    (400 : ℕ) / ItemSize ItemState.GRID = 3 ∧
    (2 : ℕ) ≠ 3 := by
  refine ⟨?_, ?_, ?_⟩ <;> decide

/-- C6 (amended): in overview mode, for widths of at least one cell (the
widget never allocates below its measured minimum of four cells) and at
least one item: the column count is `floor(W / 130)` except when that
would put all items into a single row (`ceil(N / floor(W / 130)) = 1`), in
which case it is clamped to the item count `N`; the row count equals
`ceil(N / columns)`; item `i` is placed row-major at cell
`(i mod columns, i div columns)`; and the grid block is centered, with
horizontal offset `(W - columns·130) / 2` and vertical offset
`(H - rows·130) / 2`. -/
theorem overviewLayout_rowMajor (width height n i : ℕ)
    (hw : ItemSize ItemState.GRID ≤ width) (hn : 1 ≤ n) (hi : i < n) :
    ((overviewColumnRow width n).1 =
      if (n + width / ItemSize ItemState.GRID - 1) / (width / ItemSize ItemState.GRID) = 1
      then n else width / ItemSize ItemState.GRID) ∧
    ((overviewColumnRow width n).2 =
      (n + (overviewColumnRow width n).1 - 1) / (overviewColumnRow width n).1) ∧
    (overviewItemPos width height n i none none =
      (((width : ℚ) - (((overviewColumnRow width n).1 * ItemSize ItemState.GRID : ℕ) : ℚ)) / 2 +
          (((i % (overviewColumnRow width n).1) * ItemSize ItemState.GRID : ℕ) : ℚ),
        ((height : ℚ) - (((overviewColumnRow width n).2 * ItemSize ItemState.GRID : ℕ) : ℚ)) / 2 +
          (((i / (overviewColumnRow width n).1) * ItemSize ItemState.GRID : ℕ) : ℚ))) := by
  refine ⟨rfl, ?_, ?_⟩
  · show (overviewColumnRow width n).2 = _
    unfold overviewColumnRow
    by_cases hr : (n + width / ItemSize ItemState.GRID - 1) / (width / ItemSize ItemState.GRID) = 1
    · simp only [hr, if_pos]
      have : (n + n - 1) / n = 1 := Nat.div_eq_of_lt_le (by omega) (by omega)
      omega
    · simp [hr]
  · unfold overviewItemPos overviewDragOffset
    simp [gridOffsetX, gridOffsetY]

theorem overviewLayout_rowMajor_witness :
    ItemSize ItemState.GRID ≤ 400 ∧ 1 ≤ 5 ∧ 3 < 5 ∧
    ((overviewColumnRow 400 5).1 =
      if (5 + 400 / ItemSize ItemState.GRID - 1) / (400 / ItemSize ItemState.GRID) = 1
      then 5 else 400 / ItemSize ItemState.GRID) ∧
    ((overviewColumnRow 400 5).2 =
      (5 + (overviewColumnRow 400 5).1 - 1) / (overviewColumnRow 400 5).1) ∧
    (overviewItemPos 400 400 5 3 none none =
      (((400 : ℚ) - (((overviewColumnRow 400 5).1 * ItemSize ItemState.GRID : ℕ) : ℚ)) / 2 +
          (((3 % (overviewColumnRow 400 5).1) * ItemSize ItemState.GRID : ℕ) : ℚ),
        ((400 : ℚ) - (((overviewColumnRow 400 5).2 * ItemSize ItemState.GRID : ℕ) : ℚ)) / 2 +
          (((3 / (overviewColumnRow 400 5).1) * ItemSize ItemState.GRID : ℕ) : ℚ))) :=
  ⟨by decide, by decide, by decide,
    overviewLayout_rowMajor 400 400 5 3 (by decide) (by decide) (by decide)⟩

/-! ## C9 — repeated identical setItems calls -/

/-- C9 counterexample: repeating the same `setItems` call whose center
config shares name and icon with a list entry classifies the second
call's transition as kind C (the `wentOneLevelDeeper` heuristic matches),
not kind E as claimed. -/
theorem setItemsVis_repeat_notE_counterexample :
    (setItemsVis (setItemsVis visInit argsClash) argsClash).upcomingTransition =
      TransitionType.TRANSITION_C ∧
    TransitionType.TRANSITION_C ≠ TransitionType.TRANSITION_E := by
  constructor
  · decide
  · decide

/-- C9 (amended): calling `setItems` twice in succession with an identical
configuration list, selection, center config and parent angle yields
identical final (end-of-animation) positions for every displayed item and
for the center item — no positional drift, for every trigonometric
evaluation `sinDeg`/`cosDeg` and widget size.  The second call's
transition is classified as kind E provided the supplied center config (if
any) does not share name and icon with an entry of the configuration list
(otherwise the level-change heuristics fire and yield kind C). -/
theorem setItemsVis_idempotent (s0 : VisState) (a : SetItemsArgs)
    (sinDeg cosDeg : ℚ → ℚ) (width height : ℕ) :
    endTargets sinDeg cosDeg (setItemsVis (setItemsVis s0 a) a) width height =
      endTargets sinDeg cosDeg (setItemsVis s0 a) width height ∧
    (a.centerConfig.all (fun cc => a.configs.all (fun c => !configMatches c cc)) = true →
      (setItemsVis (setItemsVis s0 a) a).upcomingTransition =
        TransitionType.TRANSITION_E) := by
  constructor
  · rfl
  · intro h
    show classifyTransition a.configs a.centerConfig a.parentAngle a.configs a.centerConfig
        a.parentAngle = TransitionType.TRANSITION_E
    cases hcc : a.centerConfig with
    | none => simp [classifyTransition]
    | some cc =>
      have hall : a.configs.all (fun c => !configMatches c cc) = true := by
        rw [hcc] at h
        simpa [Option.all] using h
      have hany : a.configs.any (fun c => configMatches c cc) = false := by
        rw [List.any_eq_false]
        intro c hc
        have := List.all_eq_true.mp hall c hc
        simpa using this
      simp [classifyTransition, hany]

theorem setItemsVis_idempotent_witness :
    argsDistinct.centerConfig.all
      (fun cc => argsDistinct.configs.all (fun c => !configMatches c cc)) = true ∧
    endTargets (fun _ => 0) (fun _ => 1) (setItemsVis (setItemsVis visInit argsDistinct)
        argsDistinct) 520 520 =
      endTargets (fun _ => 0) (fun _ => 1) (setItemsVis visInit argsDistinct) 520 520 ∧
    (setItemsVis (setItemsVis visInit argsDistinct) argsDistinct).upcomingTransition =
      TransitionType.TRANSITION_E := by
  have h : argsDistinct.centerConfig.all
      (fun cc => argsDistinct.configs.all (fun c => !configMatches c cc)) = true := by decide
  exact ⟨h,
    (setItemsVis_idempotent visInit argsDistinct (fun _ => 0) (fun _ => 1) 520 520).1,
    (setItemsVis_idempotent visInit argsDistinct (fun _ => 0) (fun _ => 1) 520 520).2 h⟩
